import Mathlib

/-!
Verification of the ckpool work-generator core (`src/generator.c`) against its
natural-language specification.  The sections below give a shallow embedding of
the data model and the operations of the proxy path: the jansson-style JSON
values, the JSON-RPC response decoder (`json_result`), the reentrant notify
locator (`find_notify`), subscribe parsing and the three-tier subscribe ladder
(`parse_subscribe`, `subscribe_stratum`), notify decoding and the notification
cache (`parse_notify`, the ageing pass of `proxy_recv`), the difficulty handler
(`parse_diff`), the control-socket dispatcher (`proxy_loop`), and one iteration
of the share-send loop (`proxy_send`).  Theorems about the frozen claims follow
the definitions.
-/

/-- Jansson JSON values as used by generator.c.  `jint` is JSON_INTEGER,
`jreal` is JSON_REAL (the double payload is modelled as an exact rational,
which is faithful here because generator.c only stores and compares these
numbers, never computes with them). -/
inductive JVal where
  | jnull
  | jbool (b : Bool)
  | jint (n : Int)
  | jreal (x : Rat)
  | jstr (s : String)
  | jarr (elems : List JVal)
  | jobj (fields : List (String × JVal))

namespace JVal

/-- `json_object_get`: field lookup on an object, NULL (none) for a missing
key or a non-object value.  Jansson objects have unique keys. -/
def json_object_get : JVal → String → Option JVal
  | jobj fields, k => lookupField fields k
  | _, _ => none
where lookupField : List (String × JVal) → String → Option JVal
  | [], _ => none
  | (k', v) :: tl, k => if k' = k then some v else lookupField tl k

/-- `json_array_get`: index lookup, NULL (none) out of range or non-array. -/
def json_array_get : JVal → Nat → Option JVal
  | jarr elems, i => elems[i]?
  | _, _ => none

/-- `json_is_array`. -/
def isArray : JVal → Bool
  | jarr _ => true
  | _ => false

/-- `json_array_size`: 0 for non-arrays. -/
def json_array_size : JVal → Nat
  | jarr elems => elems.length
  | _ => 0

/-- `json_string_value`: NULL (none) for non-strings. -/
def json_string_value : Option JVal → Option String
  | some (jstr s) => some s
  | _ => none

/-- `json_is_true` on a possibly-NULL value. -/
def json_is_true : Option JVal → Bool
  | some (jbool true) => true
  | _ => false

/-- `json_number_value`: the numeric payload of an integer or real, 0 for
anything else (including NULL). -/
def json_number_value : Option JVal → Rat
  | some (jint n) => (n : Rat)
  | some (jreal x) => x
  | _ => 0

/-- `json_integer_value` guarded by `json_is_integer`, for positions the code
requires to be JSON integers. -/
def json_as_int : Option JVal → Option Int
  | some (jint n) => some n
  | _ => none

end JVal

open JVal

/-- `json_result` (generator.c:221): fetch the `result` member; a JSON `null`
result is mapped to NULL.  The `error` member is consulted only for the log
message, never for the return value. -/
def json_result (val : JVal) : Option JVal :=
  match json_object_get val "result" with
  | some jnull => none
  | some v => some v
  | none => none

/-- `strncasecmp(s, pat, strlen(pat)) == 0`: case-insensitive match of the
first `strlen(pat)` characters of `s` against `pat` (prefix match). -/
def ci_match (s pat : String) : Bool :=
  (s.data.take pat.data.length).map Char.toLower = pat.data.map Char.toLower

mutual

/-- `find_notify` (generator.c:269): recursively search arrays for one whose
first element is the string `mining.notify` (matched case-insensitively on its
first 13 characters), returning that array, else NULL. -/
def find_notify : JVal → Option JVal
  | jarr elems =>
    match json_string_value (json_array_get (jarr elems) 0) with
    | some entry =>
      if ci_match entry "mining.notify" then some (jarr elems)
      else find_notify_list elems
    | none => find_notify_list elems
  | _ => none

/-- The `for` loop of `find_notify` over the array elements. -/
def find_notify_list : List JVal → Option JVal
  | [] => none
  | v :: tl =>
    match find_notify v with
    | some r => some r
    | none => find_notify_list tl

end

/-- The data of a successful `parse_subscribe` (generator.c:292): the fields
of `proxy_instance` that a fully successful parse has established.  A partial
parse that fails a later check is modelled as overall failure (`none`). -/
structure SubRes where
  sessionid : Option String
  enonce1 : String
  nonce1len : Nat
  nonce2len : Int
deriving Repr, DecidableEq

/-- `parse_subscribe` (generator.c:292), from the decoded response message
(the line already read and `json_loads`-ed): require a `result` array of size
at least 3 containing a notify descriptor; optionally copy a session id;
index 1 must be a string of `strlen >= 1` whose implied binary length
`strlen/2` is at most 15; index 2 must be a JSON integer in [1,8] and not
below 4. -/
def parse_subscribe (no_params no_sessionid : Bool) (resp : JVal) : Option SubRes :=
  match json_result resp with
  | none => none
  | some res_val =>
    if !res_val.isArray then none
    else if json_array_size res_val < 3 then none
    else match find_notify res_val with
      | none => none
      | some notify_val =>
        let sessionid : Option String :=
          if !no_params && !no_sessionid && json_array_size notify_val > 1 then
            json_string_value (json_array_get notify_val 1)
          else none
        match json_string_value (json_array_get res_val 1) with
        | none => none
        | some enonce1 =>
          if enonce1.length < 1 then none
          else
            let nonce1len := enonce1.length / 2
            if nonce1len > 15 then none
            else match json_as_int (json_array_get res_val 2) with
              | none => none
              | some n2 =>
                if n2 < 1 ∨ n2 > 8 then none
                else if n2 < 4 then none
                else some { sessionid, enonce1, nonce1len, nonce2len := n2 }

/-- The three forms a `mining.subscribe` request can take in
`subscribe_stratum` (generator.c:373): with `[client-tag, sessionid]`, with
`[client-tag]`, or with empty params. -/
inductive SubForm where
  | withSession
  | withParams
  | emptyParams
deriving Repr, DecidableEq

/-- The `proxy_instance` fields that drive the subscribe fallback ladder. -/
structure SubSt where
  sessionid : Option String
  no_sessionid : Bool
  no_params : Bool
deriving Repr, DecidableEq

/-- Which request form `subscribe_stratum` sends for a given session state
(generator.c:378-397). -/
def chooseForm (s : SubSt) : SubForm :=
  if s.sessionid.isSome then .withSession
  else if !s.no_params then .withParams
  else .emptyParams

/-- The upstream's behaviour towards one subscribe request form, as
`parse_subscribe` observes it: whether the response passes the full parse
(`accepted`), and the session id that the response's notify descriptor offers
at index 1, if any (`offered_sid`).  A response can offer a session id and
still fail a later check — the copy at generator.c:323-327 runs before the
enonce1 and nonce2len checks that can reject the response. -/
structure UpResponse where
  accepted : Bool
  offered_sid : Option String
deriving Repr, DecidableEq

/-- The session-id copy of `parse_subscribe` (generator.c:323-327): when
`no_params` and `no_sessionid` are both unset and the response's notify
descriptor has a string at index 1, that string is installed as the new
`sessionid` — on failed parses too, since the copy precedes the checks that
can still reject the response. -/
def plant_sessionid (s : SubSt) (r : UpResponse) : SubSt :=
  if !s.no_params && !s.no_sessionid && r.offered_sid.isSome then
    { s with sessionid := r.offered_sid }
  else s

/-- Outcome of one subscribe attempt: return from `subscribe_stratum`, or
`goto retry` with the state the fallback has advanced to. -/
inductive StepResult where
  | done (ok : Bool) (s : SubSt)
  | retry (s : SubSt)
deriving Repr, DecidableEq

/-- One iteration of `subscribe_stratum`'s retry loop (generator.c:378-427):
send the request form selected by the current state and parse the response —
including `parse_subscribe`'s session-id copy, which applies whether or not
the parse goes on to succeed.  On success return; on rejection, give up if
`no_params` is already set, otherwise discard the session id present at
failure time (setting `no_sessionid`) if there is one, and only otherwise set
`no_params`; then retry. -/
def subscribe_attempt (upstream : SubForm → UpResponse) (s : SubSt) : StepResult :=
  let r := upstream (chooseForm s)
  let s1 := plant_sessionid s r
  if r.accepted then .done true s1
  else if s1.no_params then .done false s1
  else if s1.sessionid.isSome then
    .retry { sessionid := none, no_sessionid := true, no_params := s1.no_params }
  else
    .retry { s1 with no_params := true }

/-- Position on the fallback ladder, the termination measure: it strictly
decreases across every `retry`, counting the unset capability flags and a
held session id. -/
def ladderRank (s : SubSt) : Nat :=
  (if s.no_params then 0 else 2) + (if s.no_sessionid then 0 else 1)
    + (if s.sessionid.isSome then 1 else 0)

/-- `subscribe_stratum` (generator.c:373): iterate `subscribe_attempt` until
an attempt returns.  The transport is taken as reliable here: a failed
`send_json_msg` or a failed reconnect makes the C function return false
without advancing the ladder, which is the spec's separately-handled
transient-network error, not a subscribe rejection. -/
def subscribe_stratum (upstream : SubForm → UpResponse) (s : SubSt) : Bool × SubSt :=
  match h : subscribe_attempt upstream s with
  | .done ok s1 => (ok, s1)
  | .retry s2 => subscribe_stratum upstream s2
termination_by ladderRank s
decreasing_by
  have e1 : (plant_sessionid s (upstream (chooseForm s))).no_params = s.no_params := by
    unfold plant_sessionid
    split <;> rfl
  have e2 : (plant_sessionid s (upstream (chooseForm s))).no_sessionid = s.no_sessionid := by
    unfold plant_sessionid
    split <;> rfl
  have e3 : (plant_sessionid s (upstream (chooseForm s))).sessionid.isSome = true →
      s.sessionid.isSome = true ∨ s.no_sessionid = false := by
    unfold plant_sessionid
    split
    · rename_i hgg
      intro _
      right
      simp only [Bool.and_eq_true, Bool.not_eq_true'] at hgg
      exact hgg.1.2
    · intro hh
      exact Or.inl hh
  unfold subscribe_attempt at h
  dsimp only at h
  split at h
  · exact absurd h (by simp)
  · split at h
    · exact absurd h (by simp)
    · split at h
      · rename_i hb hc
        cases h
        rw [e1] at hb
        replace hb : s.no_params = false := by simpa using hb
        rcases e3 hc with hx | hx <;>
          simp [ladderRank, e1, hb, hx] <;>
          omega
      · rename_i hb hc
        cases h
        rw [e1] at hb
        replace hb : s.no_params = false := by simpa using hb
        simp only [Bool.not_eq_true] at hc
        simp [ladderRank, e1, e2, hb, hc]
        omega

/-- `struct notify_instance` (generator.c:25).  The C record holds the merkle
branch in a fixed `char merklehash[16][68]` array; the list recorded here is
the sequence of source strings the decode loop reads (in slot order), with
`none` standing for a NULL `__json_array_string` result.  `merkle_slot_count`
below records the capacity of the C array. -/
structure notify_instance where
  id : Nat
  jobid : String
  prevhash : String
  coinbase1 : String
  coinbase2 : String
  merkles : Nat
  merklehash : List (Option String)
  bbversion : String
  nbit : String
  ntime : String
  clean : Bool
  notify_time : Int
deriving Repr, DecidableEq

/-- The capacity of `char merklehash[16][68]` in `struct notify_instance`. -/
def merkle_slot_count : Nat := 16

/-- The slot indices the merkle copy loop of `parse_notify`
(generator.c:486-491) writes for a given params value: one `memcpy` into
`merklehash[i]` for every `i < json_array_size(params[4])`, with no bound
check against the 16-slot capacity. -/
def merkle_write_indices (params : JVal) : List Nat :=
  match json_array_get params 4 with
  | some (jarr marr) => List.range marr.length
  | _ => []

/-- `json_array_string` / `__json_array_string`: the string at an array
index, NULL (none) when absent or not a string.  (The former makes an owned
copy in C; the value is the same.) -/
def json_array_string (val : JVal) (i : Nat) : Option String :=
  json_string_value (json_array_get val i)

/-- The mutable proxy state touched by the notification cache: the table (in
uthash insertion order), the current-notification pointer (modelled by the
pointed-to entry's local id), and the monotonic id counter.  `ckzalloc`
zero-initialises the live `proxy_instance`, giving `initial_pstate`. -/
structure PState where
  notify_instances : List notify_instance
  current_notify : Option Nat
  notify_id : Nat
deriving Repr, DecidableEq

/-- The zeroed `proxy_instance` state: empty table, NULL current pointer. -/
def initial_pstate : PState :=
  { notify_instances := [], current_notify := none, notify_id := 0 }

/-- `parse_notify` (generator.c:435): decode the positional params array —
`[4]` must be an array, the string fields at 0,1,2,3,5,6,7 are all mandatory,
`[8]` is the clean flag — then fill a fresh `notify_instance`, stamp it with
`time(NULL)` (the `t` argument), and under the notify lock assign the next
monotonic id, append it to the hash table and repoint `current_notify` at it.
Returns the C function's boolean alongside the state (unchanged on decode
failure). -/
def parse_notify (s : PState) (t : Int) (params : JVal) : Bool × PState :=
  match json_array_get params 4 with
  | some (jarr marr) =>
    let merkles := marr.length
    match json_array_string params 0, json_array_string params 1,
          json_array_string params 2, json_array_string params 3,
          json_array_string params 5, json_array_string params 6,
          json_array_string params 7 with
    | some job_id, some prev_hash, some coinbase1, some coinbase2,
      some bbversion, some nbit, some ntime =>
      let clean := json_is_true (json_array_get params 8)
      let ni : notify_instance :=
        { id := s.notify_id, jobid := job_id, prevhash := prev_hash,
          coinbase1 := coinbase1, coinbase2 := coinbase2,
          merkles := merkles,
          merklehash := (List.range merkles).map (fun i => json_array_string (jarr marr) i),
          bbversion := bbversion, nbit := nbit, ntime := ntime,
          clean := clean, notify_time := t }
      (true,
        { notify_instances := s.notify_instances ++ [ni]
          current_notify := some ni.id
          notify_id := s.notify_id + 1 })
    | _, _, _, _, _, _, _ => (false, s)
  | _ => (false, s)

/-- The notification ageing pass of `proxy_recv` (generator.c:905-915),
written as the `HASH_ITER` walk in insertion order with `kept` the entries
already passed over: stop the walk as soon as the table (kept plus not yet
visited) holds fewer than 3 entries, and otherwise delete the visited entry
exactly when `notify_time < now - 600`. -/
def age_notify_loop (now : Int) (kept : List notify_instance) :
    List notify_instance → List notify_instance
  | [] => kept
  | ni :: rest =>
    if kept.length + (ni :: rest).length < 3 then kept ++ ni :: rest
    else if ni.notify_time < now - 600 then age_notify_loop now kept rest
    else age_notify_loop now (kept ++ [ni]) rest

/-- One full ageing pass over the notification table. -/
def age_notifies (now : Int) (cache : List notify_instance) : List notify_instance :=
  age_notify_loop now [] cache

/-- The operations that touch the notification cache: a received
`mining.notify` at time `t`, the ageing pass of a receive-loop wakeup, and
the cache flush of `reconnect_stratum`. -/
inductive POp where
  | notify (params : JVal) (t : Int)
  | age (now : Int)
  | reconnect

/-- Effect of one operation on the cache state.  `reconnect_stratum`
(generator.c:826-832) deletes and frees every table entry under the notify
lock but leaves `current_notify` and the id counter untouched. -/
def pstep (s : PState) : POp → PState
  | .notify params t => (parse_notify s t params).2
  | .age now => { s with notify_instances := age_notifies now s.notify_instances }
  | .reconnect => { s with notify_instances := [] }

/-- Run a sequence of cache operations. -/
def prun (s : PState) : List POp → PState
  | [] => s
  | op :: tl => prun (pstep s op) tl

/-- The spec invariant on the current-notification pointer: NULL, or an alias
of an entry that is presently in the table. -/
def current_alias_ok (s : PState) : Prop :=
  s.current_notify = none ∨ ∃ ni ∈ s.notify_instances, some ni.id = s.current_notify

instance (s : PState) : Decidable (current_alias_ok s) := by
  unfold current_alias_ok; infer_instance

/-- The entry the `current_notify` pointer dereferences to, provided it is
live: the table entry carrying the pointed-at id.  A NULL pointer, and a
pointer whose entry is no longer in the table, both yield `none`. -/
def current_instance (s : PState) : Option notify_instance :=
  match s.current_notify with
  | none => none
  | some i => s.notify_instances.find? (fun ni => ni.id = i)

/-- The reply body `send_notify` (generator.c:683) builds from a live current
notification: the merkle strings collected from the slots, and the local id
published as `jobid` in place of the upstream job id. -/
def send_notify_reply (ni : notify_instance) : JVal :=
  jobj [("jobid", jint ni.id), ("prevhash", jstr ni.prevhash),
        ("coinbase1", jstr ni.coinbase1), ("coinbase2", jstr ni.coinbase2),
        ("merklehash", jarr (ni.merklehash.map (fun o => jstr (o.getD "")))),
        ("bbversion", jstr ni.bbversion), ("nbit", jstr ni.nbit),
        ("ntime", jstr ni.ntime), ("clean", jbool ni.clean)]

/-- `send_notify` (generator.c:683) reads `ni = proxi->current_notify` and
immediately iterates `ni->merkles` and packs `ni->id`, with no NULL (or
liveness) check whatsoever: with no live current notification the
dereference faults and no reply of any kind is produced (`none`). -/
def send_notify (cur : Option notify_instance) : Option JVal :=
  match cur with
  | none => none
  | some ni => some (send_notify_reply ni)

/-- What `proxy_loop` (generator.c:754) does with one control-socket
message. -/
inductive LoopReply where
  | exitLoop
  | json (v : JVal)
  | text (t : String)
  | crash
  | share (buf : String)

/-- The verb dispatch of `proxy_loop` (generator.c:784-804), matched with
`strncasecmp` in source order.  `getnotify` is routed to `send_notify`
unconditionally — there is no guard on whether a notification exists — and a
dead `current_notify` therefore reaches the faulting branch (`crash`).
Anything that matches no verb is treated as a share submission. -/
def proxy_loop_handle (s : PState) (diff : Rat) (enonce1 : String)
    (nonce2len : Int) (buf : String) : LoopReply :=
  if ci_match buf "shutdown" then .exitLoop
  else if ci_match buf "getsubscribe" then
    .json (jobj [("enonce1", jstr enonce1), ("nonce2len", jint nonce2len)])
  else if ci_match buf "getnotify" then
    match send_notify (current_instance s) with
    | none => .crash
    | some v => .json v
  else if ci_match buf "getdiff" then .json (jobj [("diff", jreal diff)])
  else if ci_match buf "ping" then .text "pong"
  else .share buf

/-- The difficulty fields of `proxy_instance`. -/
structure DiffSt where
  diff : Rat
  diffed : Bool
deriving Repr, DecidableEq

/-- `parse_diff` (generator.c:506): read the number at params[0]; if it is
zero or equal to the current difficulty leave the state alone, otherwise
store it and raise `diffed`.  (The C function always returns true.) -/
def parse_diff (s : DiffSt) (params : JVal) : DiffSt :=
  let d := json_number_value (json_array_get params 0)
  if d = 0 ∨ d = s.diff then s
  else { diff := d, diffed := true }

/-- One receive-loop step for a dispatched `mining.set_difficulty` message
(generator.c:595-598 and 942-945): run `parse_diff`, then signal the
stratifier `diff` exactly when `diffed` is set, clearing the flag.  The
returned boolean is whether a `diff` signal was sent. -/
def recv_diff_step (s : DiffSt) (params : JVal) : DiffSt × Bool :=
  let s1 := parse_diff s params
  if s1.diffed then ({ s1 with diffed := false }, true) else (s1, false)

/-- Receive-loop processing of a sequence of `mining.set_difficulty`
messages, counting the `diff` signals sent to the stratifier. -/
def recv_diff_run (s : DiffSt) : List JVal → DiffSt × Nat
  | [] => (s, 0)
  | p :: tl =>
    let step := recv_diff_step s p
    let rest := recv_diff_run step.1 tl
    (rest.1, (if step.2 then 1 else 0) + rest.2)

/-- `json_uintcpy(&id, msg, "jobid")`: the `uint32_t` read of the local job
id in `proxy_send`. -/
def json_uint (v : JVal) (k : String) : Nat :=
  match json_object_get v k with
  | some (jint n) => (n % 4294967296).toNat
  | _ => 0

/-- A field fetched with `json_object_get` for re-packing (NULL packs as a
null value). -/
def jfield (v : JVal) (k : String) : JVal :=
  (json_object_get v k).getD jnull

/-- Observable outcome of one `proxy_send` iteration: the `mining.submit`
line written upstream (if any) and whether the upstream socket was closed at
the end of the iteration. -/
structure SendOutcome where
  sent : Option JVal
  closed : Bool

/-- One iteration of `proxy_send` (generator.c:965-1009) on a dequeued
submission `msg`.  `bool ret` is declared at the top of the loop body and is
assigned ONLY on the jobid-found path (`ret = send_json_msg(...)`); on the
jobid-not-found path the final `if (!ret) close(cs->fd);` reads the variable
uninitialised, modelled by the indeterminate value `uninit_ret`.  `send_ok`
is whether the socket write succeeds when a submit is actually sent. -/
def proxy_send_iter (table : List notify_instance) (auth : String) (msg : JVal)
    (send_ok : Bool) (uninit_ret : Bool) : SendOutcome :=
  let id := json_uint msg "jobid"
  match table.find? (fun ni => ni.id = id) with
  | some ni =>
    let val := jobj [("params",
                       jarr [jstr auth, jstr ni.jobid, jfield msg "nonce2",
                             jfield msg "ntime", jfield msg "nonce"]),
                     ("id", jfield msg "id"), ("method", jstr "mining.submit")]
    { sent := some val, closed := !send_ok }
  | none =>
    { sent := none, closed := !uninit_ret }

/-! Concrete inputs used by the claim theorems. -/

/-- A minimal well-formed `mining.notify` params value (empty merkle
branch). -/
def val_notify1 : JVal :=
  jarr [jstr "job1", jstr "ph", jstr "cb1", jstr "cb2", jarr [],
        jstr "bb", jstr "nb", jstr "nt", jbool true]

/-- A `mining.notify` params value whose merkle array has 17 entries. -/
def val_notify17 : JVal :=
  jarr [jstr "job2", jstr "ph", jstr "cb1", jstr "cb2",
        jarr (List.replicate 17 (jstr "m")),
        jstr "bb", jstr "nb", jstr "nt", jbool false]

/-- A cache entry with the given local id and receive timestamp. -/
def mkNi (i : Nat) (t : Int) : notify_instance :=
  { id := i, jobid := "", prevhash := "", coinbase1 := "", coinbase2 := "",
    merkles := 0, merklehash := [], bbversion := "", nbit := "", ntime := "",
    clean := false, notify_time := t }

/-- Ten notifications inserted one second apart (timestamps 0..9), in
insertion order. -/
def cache10 : List notify_instance := (List.range 10).map (fun i => mkNi i i)

/-- The ageing pass's per-entry removal test, `ni->notify_time < now - 600`. -/
def entry_is_old (now : Int) (ni : notify_instance) : Bool :=
  decide (ni.notify_time < now - 600)

/-- A subscribe response whose result is `[notify-descriptor, enonce1, 4]`
with the extranonce1 string as a parameter. -/
def sub_resp_with_enonce1 (e1 : String) : JVal :=
  jobj [("result", jarr [jarr [jstr "mining.notify", jstr "s1"], jstr e1, jint 4])]

/-- A subscribe response whose result is `[notify-descriptor, "ab", n2]`
with the nonce2 length as a parameter. -/
def sub_resp_with_n2 (n2 : Int) : JVal :=
  jobj [("result", jarr [jarr [jstr "mining.notify", jstr "s1"], jstr "ab", jint n2])]

/-- A 31-character (odd-length) extranonce1 hex string. -/
def e1_odd : String := "0123456789012345678901234567890"

/-- An upstream that rejects both parameterised subscribe forms and accepts
only the parameterless one, never offering a session id. -/
def accept_empty_only : SubForm → UpResponse :=
  fun f => { accepted := f == SubForm.emptyParams, offered_sid := none }

/-- An upstream that rejects every subscribe form, never offering a session
id. -/
def reject_all : SubForm → UpResponse :=
  fun _ => { accepted := false, offered_sid := none }

/-- An upstream that rejects the one-parameter form with a response whose
notify descriptor nonetheless offers a session id (for example one whose
extranonce1 then fails the length check), and accepts the parameterless
form. -/
def reject_params_with_sid : SubForm → UpResponse :=
  fun f =>
    match f with
    | .withParams => { accepted := false, offered_sid := some "sess" }
    | .emptyParams => { accepted := true, offered_sid := none }
    | .withSession => { accepted := false, offered_sid := none }

/-- A JSON-RPC response payload carrying both a non-null result and a
non-null error. -/
def resp_with_error : JVal := jobj [("result", jint 7), ("error", jstr "boom")]

/-- `mining.set_difficulty` params carrying the value `v`. -/
def sd_params (v : Rat) : JVal := jarr [jreal v]

/-- A share submission whose local jobid (5) matches no cached
notification. -/
def orphan_submit : JVal :=
  jobj [("jobid", jint 5), ("nonce2", jstr "aa"), ("ntime", jstr "bb"),
        ("nonce", jstr "cc"), ("id", jint 3)]

/-! Lemmas about the ageing walk. -/

/-- If the table (entries kept so far plus entries not yet visited) holds
fewer than 3 entries, the walk stops at once and removes nothing. -/
lemma age_loop_small (now : Int) (kept rest : List notify_instance)
    (h : kept.length + rest.length < 3) :
    age_notify_loop now kept rest = kept ++ rest := by
  cases rest with
  | nil => simp [age_notify_loop]
  | cons x tl =>
    rw [age_notify_loop, if_pos]
    simpa using h

/-- The walk never lets the table drop below 2 entries. -/
lemma age_loop_len (now : Int) :
    ∀ (rest kept : List notify_instance), 2 ≤ kept.length + rest.length →
      2 ≤ (age_notify_loop now kept rest).length := by
  intro rest
  induction rest with
  | nil => intro kept h; simpa [age_notify_loop] using h
  | cons x tl ih =>
    intro kept h
    rw [age_notify_loop]
    by_cases h3 : kept.length + (x :: tl).length < 3
    · rw [if_pos h3]; simp only [List.length_append]; simpa using h
    · rw [if_neg h3]
      by_cases hold : x.notify_time < now - 600
      · rw [if_pos hold]
        apply ih
        simp only [List.length_cons] at h3
        omega
      · rw [if_neg hold]
        apply ih
        simp only [List.length_append, List.length_cons, List.length_nil] at h ⊢
        omega

/-- An entry that is not stale survives the walk. -/
lemma age_loop_keeps_fresh (now : Int) :
    ∀ (rest kept : List notify_instance) (ni : notify_instance),
      (ni ∈ kept ∨ ni ∈ rest) → ¬(ni.notify_time < now - 600) →
      ni ∈ age_notify_loop now kept rest := by
  intro rest
  induction rest with
  | nil =>
    intro kept ni hmem _
    rcases hmem with h | h
    · simpa [age_notify_loop] using h
    · cases h
  | cons x tl ih =>
    intro kept ni hmem hfresh
    rw [age_notify_loop]
    by_cases h3 : kept.length + (x :: tl).length < 3
    · rw [if_pos h3]
      rcases hmem with h | h
      · exact List.mem_append_left _ h
      · exact List.mem_append_right _ h
    · rw [if_neg h3]
      by_cases hold : x.notify_time < now - 600
      · rw [if_pos hold]
        apply ih
        · rcases hmem with h | h
          · exact Or.inl h
          · rcases List.mem_cons.mp h with rfl | h
            · exact absurd hold hfresh
            · exact Or.inr h
        · exact hfresh
      · rw [if_neg hold]
        apply ih
        · rcases hmem with h | h
          · exact Or.inl (List.mem_append_left _ h)
          · rcases List.mem_cons.mp h with rfl | h
            · exact Or.inl (List.mem_append_right _ (List.mem_singleton.mpr rfl))
            · exact Or.inr h
        · exact hfresh

/-- The walk only ever drops entries, never invents them. -/
lemma age_loop_mem (now : Int) :
    ∀ (rest kept : List notify_instance) (ni : notify_instance),
      ni ∈ age_notify_loop now kept rest → ni ∈ kept ∨ ni ∈ rest := by
  intro rest
  induction rest with
  | nil =>
    intro kept ni h
    exact Or.inl (by simpa [age_notify_loop] using h)
  | cons x tl ih =>
    intro kept ni h
    rw [age_notify_loop] at h
    by_cases h3 : kept.length + (x :: tl).length < 3
    · rw [if_pos h3] at h
      rcases List.mem_append.mp h with h | h
      · exact Or.inl h
      · exact Or.inr h
    · rw [if_neg h3] at h
      by_cases hold : x.notify_time < now - 600
      · rw [if_pos hold] at h
        rcases ih kept ni h with h | h
        · exact Or.inl h
        · exact Or.inr (List.mem_cons_of_mem _ h)
      · rw [if_neg hold] at h
        rcases ih (kept ++ [x]) ni h with h | h
        · rcases List.mem_append.mp h with h | h
          · exact Or.inl h
          · exact Or.inr (List.mem_cons.mpr (Or.inl (List.mem_singleton.mp h)))
        · exact Or.inr (List.mem_cons_of_mem _ h)

/-- After the first `diff` signal for a value, further `mining.set_difficulty`
messages carrying the same value neither change the state nor signal. -/
lemma recv_diff_run_same (v : Rat) (n : Nat) :
    recv_diff_run ⟨v, false⟩ (List.replicate n (sd_params v)) = (⟨v, false⟩, 0) := by
  induction n with
  | zero => rfl
  | succ m ih =>
    simp only [sd_params] at ih
    simp [List.replicate_succ, recv_diff_run, recv_diff_step, parse_diff,
          sd_params, json_array_get, json_number_value, ih]

/-! The claims. -/

/-- C1, counterexample: starting the ageing pass from 10 entries inserted one
second apart (`cache10`) with the clock advanced 700 seconds, every entry is
stale, yet the pass leaves 2 entries — not the 3 the claim states — because
the `HASH_COUNT < 3` stop test runs before each removal, not after. -/
theorem c1_age_claim_false :
    cache10.length = 10
  ∧ cache10.all (entry_is_old 709) = true
  ∧ (age_notifies 709 cache10).length = 2 := by
  refine ⟨by decide, by decide, by decide⟩

/-- C1, amended: a pass removes nothing when the table holds fewer than 3
entries; it never drops the table below 2 entries (not 3); entries not older
than 600 seconds always survive, and no entry is ever added; and from 10
entries that are all older than 600 seconds, exactly the 8 oldest are removed
and the 2 newest remain. -/
theorem c1_age_amended :
    (∀ (now : Int) (cache : List notify_instance), cache.length < 3 →
        age_notifies now cache = cache)
  ∧ (∀ (now : Int) (cache : List notify_instance), 2 ≤ cache.length →
        2 ≤ (age_notifies now cache).length)
  ∧ (∀ (now : Int) (cache : List notify_instance) (ni : notify_instance),
        ni ∈ cache → ¬(ni.notify_time < now - 600) → ni ∈ age_notifies now cache)
  ∧ (∀ (now : Int) (cache : List notify_instance) (ni : notify_instance),
        ni ∈ age_notifies now cache → ni ∈ cache)
  ∧ age_notifies 709 cache10 = [mkNi 8 8, mkNi 9 9] := by
  refine ⟨?_, ?_, ?_, ?_, by decide⟩
  · intro now cache h
    simpa [age_notifies] using age_loop_small now [] cache (by simpa using h)
  · intro now cache h
    exact age_loop_len now cache [] (by simpa using h)
  · intro now cache ni hmem hfresh
    exact age_loop_keeps_fresh now cache [] ni (Or.inr hmem) hfresh
  · intro now cache ni h
    rcases age_loop_mem now cache [] ni h with h | h
    · cases h
    · exact h

/-- C1, witness: the amended theorem applied at concrete inputs — a
2-element stale cache is left untouched, the 10-entry pass keeps at least 2,
a fresh entry survives, and survivors come from the cache. -/
theorem c1_age_amended_witness :
    age_notifies 709 [mkNi 0 0, mkNi 1 1] = [mkNi 0 0, mkNi 1 1]
  ∧ 2 ≤ (age_notifies 709 cache10).length
  ∧ mkNi 9 9 ∈ age_notifies 10 cache10
  ∧ (mkNi 8 8 ∈ age_notifies 709 cache10 → mkNi 8 8 ∈ cache10) :=
  ⟨c1_age_amended.1 709 [mkNi 0 0, mkNi 1 1] (by decide),
   c1_age_amended.2.1 709 cache10 (by decide),
   c1_age_amended.2.2.1 10 cache10 (mkNi 9 9) (by decide) (by decide),
   c1_age_amended.2.2.2.1 709 cache10 (mkNi 8 8)⟩

/-- C2: the claimed invariant — `current_notify` is null or aliases a live
table entry — is broken by the reconnect flush: after one decoded
`mining.notify` followed by `reconnect_stratum`'s cache flush, the table is
empty while `current_notify` still points at the (freed) entry with id 0. -/
theorem c2_reconnect_dangles :
    (prun initial_pstate [POp.notify val_notify1 100, POp.reconnect]).current_notify = some 0
  ∧ (prun initial_pstate [POp.notify val_notify1 100, POp.reconnect]).notify_instances = []
  ∧ ¬ current_alias_ok (prun initial_pstate [POp.notify val_notify1 100, POp.reconnect]) := by
  refine ⟨by decide, by decide, by decide⟩

/-- C3: decoding a `mining.notify` whose merkle array has 17 entries succeeds
and its copy loop writes slot index 16 — one past the fixed 16-slot
`merklehash` array — so the claimed truncation at 16 entries does not
happen. -/
theorem c3_merkle_overflow :
    (parse_notify initial_pstate 0 val_notify17).1 = true
  ∧ merkle_write_indices val_notify17 = List.range 17
  ∧ 16 ∈ merkle_write_indices val_notify17
  ∧ ¬ 16 < merkle_slot_count := by
  refine ⟨by decide, by decide, by decide, by decide⟩

/-- C4, counterexample: from the no-session state with parameters still
being sent, a rejected one-parameter subscribe attempt whose response offers
a session id does NOT set `no_params` as the claim requires: the session-id
copy of `parse_subscribe` runs before the failing check, so the fallback
takes the session branch instead — it sets `no_sessionid`, leaves
`no_params` false, and retries the very same one-parameter form. -/
theorem c4_one_step_claim_false :
    (⟨none, false, false⟩ : SubSt).sessionid = none
  ∧ (⟨none, false, false⟩ : SubSt).no_params = false
  ∧ (reject_params_with_sid (chooseForm ⟨none, false, false⟩)).accepted = false
  ∧ subscribe_attempt reject_params_with_sid ⟨none, false, false⟩
      = StepResult.retry ⟨none, true, false⟩
  ∧ (⟨none, true, false⟩ : SubSt).no_params = false
  ∧ chooseForm ⟨none, true, false⟩ = chooseForm ⟨none, false, false⟩ := by
  refine ⟨rfl, rfl, by decide, by decide, rfl, by decide⟩

/-- C4, amended: the ladder branches on the session id held at failure time,
which includes one copied out of the rejected response itself.  On a rejected
attempt with `no_params` already set the call gives up fatally; on a rejected
attempt with a session id present after the parse (held before the attempt or
planted by the rejected response), the session id is discarded, `no_sessionid`
is set and the call retries; only with no session id present after the parse
is `no_params` set before retrying.  An upstream accepting only the
parameterless form still ends in success with final state
`no_sessionid = true, no_params = true` — both when a session id was in use
and when rejected responses plant one. -/
theorem c4_subscribe_ladder :
    (∀ (upstream : SubForm → UpResponse) (s : SubSt),
        (upstream (chooseForm s)).accepted = false → s.no_params = true →
        subscribe_stratum upstream s = (false, s))
  ∧ (∀ (upstream : SubForm → UpResponse) (s : SubSt),
        (upstream (chooseForm s)).accepted = false → s.no_params = false →
        (plant_sessionid s (upstream (chooseForm s))).sessionid.isSome = true →
        subscribe_stratum upstream s = subscribe_stratum upstream ⟨none, true, false⟩)
  ∧ (∀ (upstream : SubForm → UpResponse) (s : SubSt),
        (upstream (chooseForm s)).accepted = false → s.no_params = false →
        (plant_sessionid s (upstream (chooseForm s))).sessionid = none →
        subscribe_stratum upstream s = subscribe_stratum upstream ⟨none, s.no_sessionid, true⟩)
  ∧ subscribe_stratum accept_empty_only ⟨some "sess", false, false⟩
      = (true, ⟨none, true, true⟩)
  ∧ subscribe_stratum reject_params_with_sid ⟨none, false, false⟩
      = (true, ⟨none, true, true⟩) := by
  refine ⟨?_, ?_, ?_, ?_, ?_⟩
  · intro upstream s hacc hnp
    have hstep : subscribe_attempt upstream s = .done false s := by
      unfold subscribe_attempt plant_sessionid
      simp [hacc, hnp]
    rw [subscribe_stratum, hstep]
  · intro upstream s hacc hnp hsid
    have hnp1 : (plant_sessionid s (upstream (chooseForm s))).no_params = false := by
      unfold plant_sessionid
      split <;> simpa using hnp
    have hstep : subscribe_attempt upstream s = .retry ⟨none, true, false⟩ := by
      unfold subscribe_attempt
      simp [hacc, hnp1, hsid]
    rw [subscribe_stratum, hstep]
  · intro upstream s hacc hnp hsid
    have hnp1 : (plant_sessionid s (upstream (chooseForm s))).no_params = false := by
      unfold plant_sessionid
      split <;> simpa using hnp
    have hns1 : (plant_sessionid s (upstream (chooseForm s))).no_sessionid = s.no_sessionid := by
      unfold plant_sessionid
      split <;> rfl
    have hstep : subscribe_attempt upstream s = .retry ⟨none, s.no_sessionid, true⟩ := by
      unfold subscribe_attempt
      simp [hacc, hnp1, hsid, hns1]
    rw [subscribe_stratum, hstep]
  · simp [subscribe_stratum, subscribe_attempt, chooseForm, plant_sessionid,
          accept_empty_only]
  · simp [subscribe_stratum, subscribe_attempt, chooseForm, plant_sessionid,
          reject_params_with_sid]

/-- C4, witness: the amended ladder theorem applied at concrete states — the
fatal exhaustion case, the session-discarding step on a rejection that plants
a session id, and the parameter-dropping step on a plain rejection. -/
theorem c4_subscribe_ladder_witness :
    subscribe_stratum reject_all ⟨none, false, true⟩ = (false, ⟨none, false, true⟩)
  ∧ subscribe_stratum reject_params_with_sid ⟨none, false, false⟩
      = subscribe_stratum reject_params_with_sid ⟨none, true, false⟩
  ∧ subscribe_stratum reject_all ⟨none, false, false⟩
      = subscribe_stratum reject_all ⟨none, false, true⟩ :=
  ⟨c4_subscribe_ladder.1 reject_all ⟨none, false, true⟩ rfl rfl,
   c4_subscribe_ladder.2.1 reject_params_with_sid ⟨none, false, false⟩ rfl rfl (by decide),
   c4_subscribe_ladder.2.2.1 reject_all ⟨none, false, false⟩ rfl rfl (by decide)⟩

/-- C5, counterexample: `parse_subscribe` accepts the 31-character (odd
length) extranonce1 string — `strlen/2 = 15` passes the only length check —
so the claimed rejection of odd-length strings does not happen. -/
theorem c5_odd_length_accepted :
    (parse_subscribe false false (sub_resp_with_enonce1 e1_odd)).isSome = true
  ∧ e1_odd.length % 2 = 1
  ∧ e1_odd.length = 31 := by
  refine ⟨?_, by decide, by decide⟩
  simp [parse_subscribe, sub_resp_with_enonce1, json_result, json_object_get,
        json_object_get.lookupField, find_notify, find_notify_list, ci_match,
        json_string_value, json_array_get, json_array_size, json_as_int,
        JVal.isArray, e1_odd]
  decide

/-- C5, amended: with the rest of the response well-formed, the extranonce1
string at index 1 is accepted exactly when its length is between 1 and 31
characters — `strlen/2 ≤ 15` binary bytes, with no evenness check, a
30-character string accepted and a 32-character string rejected — and on
acceptance it is stored with `nonce1len = strlen/2`. -/
theorem c5_enonce1_amended : ∀ e1 : String,
    parse_subscribe false false (sub_resp_with_enonce1 e1)
    = if 1 ≤ e1.length ∧ e1.length ≤ 31 then
        some { sessionid := some "s1", enonce1 := e1,
               nonce1len := e1.length / 2, nonce2len := 4 }
      else none := by
  intro e1
  simp [parse_subscribe, sub_resp_with_enonce1, json_result, json_object_get,
        json_object_get.lookupField, find_notify, find_notify_list, ci_match,
        json_string_value, json_array_get, json_array_size, json_as_int,
        JVal.isArray]
  split_ifs <;> first | rfl | omega

/-- C6: with the rest of the response well-formed, the nonce2 length at
index 2 is accepted exactly when it lies in the inclusive interval [4, 8]
(so 3 and 9 are rejected, 4 and 8 accepted), and on acceptance it is stored
as the session's nonce2 length. -/
theorem c6_nonce2_range : ∀ n2 : Int,
    parse_subscribe false false (sub_resp_with_n2 n2)
    = if 4 ≤ n2 ∧ n2 ≤ 8 then
        some { sessionid := some "s1", enonce1 := "ab",
               nonce1len := 1, nonce2len := n2 }
      else none := by
  intro n2
  have hab : ("ab" : String).length = 2 := by decide
  simp [parse_subscribe, sub_resp_with_n2, json_result, json_object_get,
        json_object_get.lookupField, find_notify, find_notify_list, ci_match,
        json_string_value, json_array_get, json_array_size, json_as_int,
        JVal.isArray, hab]
  split_ifs <;> first | rfl | omega

/-- C7: on the drop path for an unresolvable local job id, `proxy_send`'s
final `if (!ret) close(...)` reads the never-assigned `ret`; when the
indeterminate stack value happens to be false the upstream socket IS closed
on that path with nothing having been sent, while on the resolved path the
socket is closed exactly when the write fails. -/
theorem c7_uninit_ret_close :
    (proxy_send_iter [] "user" orphan_submit true false).sent = none
  ∧ (proxy_send_iter [] "user" orphan_submit true false).closed = true
  ∧ (proxy_send_iter [] "user" orphan_submit true true).closed = false := by
  exact ⟨rfl, rfl, rfl⟩

/-- C8, counterexample: on a payload carrying both a non-null `result` and a
non-null `error`, `json_result` returns the result sub-value, not null — the
error member only feeds the log message. -/
theorem c8_error_ignored :
    json_result resp_with_error = some (jint 7)
  ∧ json_object_get resp_with_error "error" = some (jstr "boom")
  ∧ (json_result resp_with_error).isSome = true :=
  ⟨rfl, rfl, rfl⟩

/-- C8, amended: `json_result` returns null exactly when the `result` member
is absent or JSON null, and returns the `result` sub-value whenever it is
present and non-null — regardless of any `error` member. -/
theorem c8_result_amended : ∀ val : JVal,
    (json_result val = none ↔
      json_object_get val "result" = none ∨ json_object_get val "result" = some jnull)
  ∧ (∀ v : JVal, json_object_get val "result" = some v → v ≠ jnull →
      json_result val = some v) := by
  intro val
  constructor
  · cases h : json_object_get val "result" with
    | none => simp [json_result, h]
    | some v => cases v <;> simp [json_result, h]
  · intro v hv hne
    cases v <;> simp [json_result, hv]
    exact absurd rfl hne

/-- C8, witness: the amended theorem applied to the result-and-error payload
returns its non-null result. -/
theorem c8_result_amended_witness : json_result resp_with_error = some (jint 7) :=
  (c8_result_amended resp_with_error).2 (jint 7) rfl (fun h => JVal.noConfusion h)

/-- C9: `parse_diff` is idempotent; it installs a new difficulty and raises
`diffed` exactly when the carried value is nonzero and differs from the
current one, and leaves the state untouched otherwise; and a run of n+1
receive-loop wakeups all carrying the same new nonzero value emits exactly
one `diff` signal. -/
theorem c9_diff_idempotent :
    (∀ (s : DiffSt) (p : JVal), parse_diff (parse_diff s p) p = parse_diff s p)
  ∧ (∀ (s : DiffSt) (v : Rat), v ≠ 0 → v ≠ s.diff →
        parse_diff s (sd_params v) = { diff := v, diffed := true })
  ∧ (∀ (s : DiffSt) (v : Rat), v = 0 ∨ v = s.diff →
        parse_diff s (sd_params v) = s)
  ∧ (∀ (s : DiffSt) (v : Rat) (n : Nat), v ≠ 0 → v ≠ s.diff → s.diffed = false →
        (recv_diff_run s (List.replicate (n + 1) (sd_params v))).2 = 1) := by
  refine ⟨?_, ?_, ?_, ?_⟩
  · intro s p
    unfold parse_diff
    by_cases h : json_number_value (json_array_get p 0) = 0
              ∨ json_number_value (json_array_get p 0) = s.diff
    · simp [h]
    · simp [h]
  · intro s v h0 hne
    simp [parse_diff, sd_params, json_array_get, json_number_value, h0, hne]
  · intro s v h
    simp [parse_diff, sd_params, json_array_get, json_number_value]
    intro h0 hne
    rcases h with h | h
    · exact absurd h h0
    · exact absurd h hne
  · intro s v n h0 hne hdf
    have hstep : recv_diff_step s (sd_params v) = (⟨v, false⟩, true) := by
      simp [recv_diff_step, parse_diff, sd_params, json_array_get,
            json_number_value, h0, hne]
    simp [List.replicate_succ, recv_diff_run, hstep, recv_diff_run_same]

/-- C9, witness: from difficulty 1, three consecutive `set_difficulty 2`
messages produce exactly one `diff` signal. -/
theorem c9_diff_idempotent_witness :
    (recv_diff_run ⟨1, false⟩ (List.replicate 3 (sd_params 2))).2 = 1 :=
  c9_diff_idempotent.2.2.2 ⟨1, false⟩ 2 2 (by norm_num) (by norm_num) rfl

/-- C10: the zeroed initial proxy state has a NULL `current_notify`; the
`proxy_loop` dispatcher routes any `getnotify` request to `send_notify` with
no precondition check, so whenever no live current notification exists the
faulting dereference branch is reached and no (error) reply is produced —
both in the never-notified initial state and in the dangling state left by a
reconnect flush. -/
theorem c10_getnotify_needs_notify :
    initial_pstate.current_notify = none
  ∧ (∀ (s : PState) (d : Rat) (e1 : String) (n2 : Int),
        current_instance s = none →
        proxy_loop_handle s d e1 n2 "getnotify" = LoopReply.crash)
  ∧ proxy_loop_handle initial_pstate 0 "" 4 "getnotify" = LoopReply.crash
  ∧ proxy_loop_handle (prun initial_pstate [POp.notify val_notify1 100, POp.reconnect])
      0 "" 4 "getnotify" = LoopReply.crash := by
  refine ⟨rfl, ?_, ?_, ?_⟩
  · intro s d e1 n2 h
    simp [proxy_loop_handle, ci_match, send_notify, h]
  · simp [proxy_loop_handle, ci_match, send_notify, current_instance, initial_pstate]
  · have h : current_instance
        (prun initial_pstate [POp.notify val_notify1 100, POp.reconnect]) = none := by
      decide
    simp [proxy_loop_handle, ci_match, send_notify, h]

/-- C10, witness: the unconditional-routing fact applied at the initial
state. -/
theorem c10_getnotify_needs_notify_witness :
    proxy_loop_handle initial_pstate 1 "ff" 5 "getnotify" = LoopReply.crash :=
  c10_getnotify_needs_notify.2.1 initial_pstate 1 "ff" 5 rfl
